import Mathlib

/-
Verification development for the backend of the AI-Travel-Planner repository
(src/backend/app.py). The Python module is shallowly embedded: each Python
function becomes a Lean function over an explicit JSON value type, the global
token cache becomes explicit state passing, and each outbound network call is
an explicit oracle parameter (one outcome per attempt). Time is an integer
parameter (time.time is read once per modelled call; the backoff sleeps of
tenacity are abstracted away, which is sound for the stated properties since
an invalid cache entry stays invalid as time increases). Logging is not
modelled. Python exceptions are modelled with Except; the distinction between
exception classes is kept exactly where the code branches on it.
-/

set_option autoImplicit false

namespace WatsonxBackend

/-- A single quote character as a string (used by the Python repr model). -/
def sq : String := String.mk [Char.ofNat 39]

/-- An opening curly brace as a string (used by the Python repr model). -/
def lbr : String := String.mk [Char.ofNat 123]

/-- A closing curly brace as a string (used by the Python repr model). -/
def rbr : String := String.mk [Char.ofNat 125]

/-- The fixed placeholder returned by format_response when extraction raises
(the Python source literal contains an apostrophe). -/
def parseFailMsg : String := "Received response but couldn" ++ sq ++ "t parse it"

/-- JSON values as Python sees them after json parsing: None, bools, integer
numbers, non-integral numeric literals (carried verbatim: they appear only as
the fixed generation parameters and are never computed with), strings, lists
and dicts (ordered key-value lists; parsed JSON has unique keys). -/
inductive Json where
  | null
  | bool (b : Bool)
  | int (n : Int)
  | numLit (s : String)
  | str (s : String)
  | arr (xs : List Json)
  | obj (kvs : List (String × Json))

/-- Whether a value is a Python string. -/
def Json.isStr : Json → Bool
  | Json.str _ => true
  | _ => false

/-- First-match lookup in a dict, as Python dict indexing (keys are unique in
parsed JSON). -/
def lookupKV (kvs : List (String × Json)) (key : String) : Option Json :=
  match kvs with
  | [] => none
  | (k, v) :: rest => if k = key then some v else lookupKV rest key

/-- Python exception classes that the embedded code can raise or branch on. -/
inductive PyExc where
  | typeError
  | indexError
  | keyError
  | attributeError
deriving DecidableEq

/-- Python truthiness of a JSON value (None, False, 0, empty string, empty
list, empty dict are falsy; the non-integral literals in this development are
the nonzero generation parameters, hence truthy). -/
def pyTruthy : Json → Bool
  | Json.null => false
  | Json.bool b => b
  | Json.int n => n != 0
  | Json.numLit _ => true
  | Json.str s => s != ""
  | Json.arr xs => !xs.isEmpty
  | Json.obj kvs => !kvs.isEmpty

/-- Does a list of characters start with the given key? -/
def charsStart : List Char → List Char → Bool
  | [], _ => true
  | _ :: _, [] => false
  | a :: as, b :: bs => a = b && charsStart as bs

/-- Substring search over character lists (Python `key in s` on strings). -/
def charsHasSub (key : List Char) : List Char → Bool
  | [] => key.isEmpty
  | b :: rest => charsStart key (b :: rest) || charsHasSub key rest

/-- Python substring test `key in s`. -/
def strHasSub (key s : String) : Bool := charsHasSub key.toList s.toList

/-- Drop leading whitespace characters. -/
def dropWS : List Char → List Char
  | [] => []
  | c :: cs => if c.isWhitespace then dropWS cs else c :: cs

/-- Python strip(): remove leading and trailing whitespace. -/
def pyStrip (s : String) : String :=
  String.mk ((dropWS ((dropWS s.toList).reverse)).reverse)

/-- Python equality of the string `key` against an arbitrary value (string
versus non-string compares unequal). -/
def pyEqStr (key : String) : Json → Bool
  | Json.str s => s == key
  | _ => false

/-- Python `key in data`: key membership for dicts, element membership for
lists, substring test for strings; TypeError for None, bools and numbers. -/
def pyIn (key : String) (data : Json) : Except PyExc Bool :=
  match data with
  | Json.obj kvs => Except.ok (lookupKV kvs key).isSome
  | Json.arr xs => Except.ok (xs.any (pyEqStr key))
  | Json.str s => Except.ok (strHasSub key s)
  | _ => Except.error PyExc.typeError

/-- Python `data[key]` with a string key: dict lookup (KeyError when absent);
TypeError on lists, strings and the scalar types. -/
def pySubscriptKey (data : Json) (key : String) : Except PyExc Json :=
  match data with
  | Json.obj kvs =>
    match lookupKV kvs key with
    | some v => Except.ok v
    | none => Except.error PyExc.keyError
  | _ => Except.error PyExc.typeError

/-- Python `v[0]`: first element of a list (IndexError when empty), first
character of a string as a one-character string (IndexError when empty),
KeyError for dicts keyed by strings, TypeError for the scalar types. -/
def pySubscript0 (v : Json) : Except PyExc Json :=
  match v with
  | Json.arr [] => Except.error PyExc.indexError
  | Json.arr (x :: _) => Except.ok x
  | Json.str s =>
    if s = "" then Except.error PyExc.indexError
    else Except.ok (Json.str (String.mk [s.front]))
  | Json.obj _ => Except.error PyExc.keyError
  | _ => Except.error PyExc.typeError

/-- Python `v.get(key, dflt)`: dict get with default; AttributeError when the
receiver is not a dict. -/
def pyDictGet (v : Json) (key : String) (dflt : Json) : Except PyExc Json :=
  match v with
  | Json.obj kvs => Except.ok ((lookupKV kvs key).getD dflt)
  | _ => Except.error PyExc.attributeError

mutual
/-- Python repr of a JSON value (string escaping inside repr is not modelled;
no string handled by the stated properties contains a quote or backslash). -/
def pyRepr : Json → String
  | Json.null => "None"
  | Json.bool true => "True"
  | Json.bool false => "False"
  | Json.int n => toString n
  | Json.numLit s => s
  | Json.str s => sq ++ s ++ sq
  | Json.arr xs => "[" ++ pyReprSeq xs ++ "]"
  | Json.obj kvs => lbr ++ pyReprPairs kvs ++ rbr

/-- Comma-separated reprs of the elements of a list. -/
def pyReprSeq : List Json → String
  | [] => ""
  | [x] => pyRepr x
  | x :: y :: ys => pyRepr x ++ ", " ++ pyReprSeq (y :: ys)

/-- Comma-separated `key: value` reprs of dict entries. -/
def pyReprPairs : List (String × Json) → String
  | [] => ""
  | [(k, v)] => sq ++ k ++ sq ++ ": " ++ pyRepr v
  | (k, v) :: p :: ps => sq ++ k ++ sq ++ ": " ++ pyRepr v ++ ", " ++ pyReprPairs (p :: ps)
end

/-- Python `str(v)`: the string itself for strings, repr otherwise. -/
def pyStr (v : Json) : String :=
  match v with
  | Json.str s => s
  | _ => pyRepr v

/-- The body of the try block of format_response (app.py lines 127-130): when
the membership test of the key choices in data and the truthiness test of the
choices entry both pass, return the content field of the message dict of the
first choice, with an empty dict as the message default and the fixed string
No response content as the content default; otherwise return str of data.
Each Python primitive may raise, modelled by Except. -/
def formatInner (data : Json) : Except PyExc Json :=
  match pyIn "choices" data with
  | Except.error e => Except.error e
  | Except.ok false => Except.ok (Json.str (pyStr data))
  | Except.ok true =>
    match pySubscriptKey data "choices" with
    | Except.error e => Except.error e
    | Except.ok v =>
      if pyTruthy v then
        match pySubscript0 v with
        | Except.error e => Except.error e
        | Except.ok c0 =>
          match pyDictGet c0 "message" (Json.obj []) with
          | Except.error e => Except.error e
          | Except.ok m =>
            match pyDictGet m "content" (Json.str "No response content") with
            | Except.error e => Except.error e
            | Except.ok ct => Except.ok ct
      else Except.ok (Json.str (pyStr data))

/-- format_response (app.py lines 125-132): the try body, with every raised
exception caught and converted to the fixed placeholder string. -/
def format_response (data : Json) : Json :=
  match formatInner data with
  | Except.ok v => v
  | Except.error _ => Json.str parseFailMsg

/-- The dispatch path of format_response that returns the nested content field
verbatim: data is a dict whose "choices" entry is a non-empty list whose first
element is a dict whose "message" entry is a dict containing "content". Used
to characterise exactly when format_response passes a value through unchanged. -/
def contentOfFirstChoice (data : Json) : Option Json :=
  match data with
  | Json.obj kvs =>
    match lookupKV kvs "choices" with
    | some (Json.arr (c0 :: _)) =>
      match c0 with
      | Json.obj cf =>
        match lookupKV cf "message" with
        | some (Json.obj mf) => lookupKV mf "content"
        | _ => none
      | _ => none
    | _ => none
  | _ => none

/-- CONFIG values (app.py lines 18-24). -/
def CONFIG_API_KEY : String := "your_API_KEY"

/-- CONFIG project identifier. -/
def CONFIG_PROJECT_ID : String := "your_PROJECT_ID"

/-- CONFIG deployment identifier. -/
def CONFIG_DEPLOYMENT_ID : String := "your_DEPLOYMENT_ID"

/-- CONFIG region. -/
def CONFIG_REGION : String := "us-south"

/-- CONFIG API version string. -/
def CONFIG_API_VERSION : String := "2021-05-01"

/-- TOKEN_URL (app.py line 50). -/
def TOKEN_URL : String := "https://iam.cloud.ibm.com/identity/token"

/-- BASE_ENDPOINT (app.py line 51). -/
def BASE_ENDPOINT : String :=
  "https://" ++ CONFIG_REGION ++ ".ml.cloud.ibm.com/ml/v4/deployments/" ++ CONFIG_DEPLOYMENT_ID

/-- REGULAR_ENDPOINT (app.py line 52). -/
def REGULAR_ENDPOINT : String := BASE_ENDPOINT ++ "/ai_service?version=" ++ CONFIG_API_VERSION

/-- STREAMING_ENDPOINT (app.py line 53). -/
def STREAMING_ENDPOINT : String := BASE_ENDPOINT ++ "/ai_service_stream?version=" ++ CONFIG_API_VERSION

/-- get_watsonx_payload (app.py lines 109-123): the upstream request body,
a pure function of the message. -/
def get_watsonx_payload (message : String) : Json :=
  Json.obj [
    ("messages", Json.arr [Json.obj [
      ("content", Json.str message),
      ("role", Json.str "user")]]),
    ("project_id", Json.str CONFIG_PROJECT_ID),
    ("parameters", Json.obj [
      ("max_new_tokens", Json.int 200),
      ("temperature", Json.numLit "0.7"),
      ("top_p", Json.numLit "0.9"),
      ("repetition_penalty", Json.numLit "1.1")])]

/-- Top-level field lookup on a JSON object. -/
def jsonField (j : Json) (key : String) : Option Json :=
  match j with
  | Json.obj kvs => lookupKV kvs key
  | _ => none

/-- A FastAPI HTTPException: status code plus detail string. -/
structure HTTPExc where
  code : Nat
  detail : String
deriving DecidableEq

/-- The HTTPException raised by get_ibm_token on requests.RequestException
(app.py lines 98-101). -/
def authServiceUnavailableExc : HTTPExc := ⟨503, "Authentication service unavailable"⟩

/-- The HTTPException raised by get_ibm_token on any other exception
(app.py lines 104-107). -/
def authFailedInternalExc : HTTPExc := ⟨500, "Authentication failed"⟩

/-- The HTTPException raised by chat when the initial authentication step
fails (app.py lines 171-174). -/
def authFailedExc : HTTPExc := ⟨401, "Authentication failed"⟩

/-- The HTTPException raised by chat on a network-level dispatch failure
(app.py lines 220-223). -/
def serviceUnavailableExc : HTTPExc := ⟨503, "Service unavailable"⟩

/-- The HTTPException raised by chat on an empty message (app.py lines
156-159). -/
def badRequestExc : HTTPExc := ⟨400, "Message cannot be empty"⟩

/-- The HTTPException raised by the outer boundary of chat on any uncaught
exception (app.py lines 248-251). -/
def internalErrorExc : HTTPExc := ⟨500, "Internal server error"⟩

/-- The HTTPException raised by chat when the 2xx dispatch body is not valid
JSON (app.py lines 239-242). -/
def invalidResponseExc : HTTPExc := ⟨502, "Invalid response from service"⟩

/-- The global token_cache (app.py lines 56-59): a single token (None or a
string) and an absolute expiry instant. Time is modelled as an integer. -/
structure TokenCache where
  token : Option String
  expires_at : Int
deriving DecidableEq

/-- The initial cache state: token None, expires_at 0. -/
def initialCache : TokenCache := ⟨none, 0⟩

/-- The cache-validity test of app.py line 70:
`token_cache["token"] and token_cache["expires_at"] > time.time()`.
A None or empty token is falsy. -/
def cacheValid (c : TokenCache) (now : Int) : Bool :=
  match c.token with
  | some t => t != "" && now < c.expires_at
  | none => false

/-- The cached-token read (app.py lines 70-71): the stored token when the
validity test passes, None otherwise. -/
def get_valid_token (c : TokenCache) (now : Int) : Option String :=
  if cacheValid c now then c.token else none

/-- Clearing the cached token (app.py line 192): only the token field is
cleared, the expiry is untouched. -/
def invalidate (c : TokenCache) : TokenCache := ⟨none, c.expires_at⟩

/-- One outcome of POSTing to the identity endpoint. netFail is a
requests.RequestException with no HTTP response (timeout, connection
failure). resp carries the HTTP status and the access_token field of the
parsed JSON body (none when the field is absent, which makes
`token_data["access_token"]` raise KeyError). An unparseable body is not
modelled separately: with current requests the JSONDecodeError raised by
`response.json()` is itself a RequestException and lands in the same handler
as netFail. -/
inductive IdOutcome where
  | netFail
  | resp (status : Nat) (accessToken : Option String)

/-- The network part of one get_ibm_token attempt (app.py lines 73-107),
reached when the cache is invalid: a RequestException (including the
HTTPError raised by `response.raise_for_status()` on a 4xx or 5xx status)
maps to HTTP 503 "Authentication service unavailable"; any other exception
(here: KeyError on a missing access_token field) maps to HTTP 500
"Authentication failed"; on success the token is stored with a fixed one-hour
expiry and returned. -/
def acquireNetwork (now : Int) (o : IdOutcome) : Except HTTPExc (String × TokenCache) :=
  match o with
  | IdOutcome.netFail => Except.error authServiceUnavailableExc
  | IdOutcome.resp status accessToken =>
    if 400 ≤ status ∧ status < 600 then Except.error authServiceUnavailableExc
    else
      match accessToken with
      | none => Except.error authFailedInternalExc
      | some t => Except.ok (t, ⟨some t, now + 3600⟩)

/-- One attempt of get_ibm_token (the decorated function body, app.py lines
66-107): return the cached token when still valid, otherwise contact the
identity endpoint. Returns the token and the resulting cache state. -/
def acquireAttempt (c : TokenCache) (now : Int) (o : IdOutcome) : Except HTTPExc (String × TokenCache) :=
  if cacheValid c now then Except.ok (c.token.getD "", c)
  else acquireNetwork now o

/-- The tenacity retry loop around get_ibm_token
(`stop_after_attempt(3), reraise=True`, app.py lines 61-65): run attempts
indexed by i while fuel remains; a failed attempt is retried until the
attempt budget is exhausted, and the final failure is reraised unmodified.
Returns the result, the final cache state, and the number of attempts made.
The backoff sleeps between attempts are abstracted (see the file header). -/
def acquireGo (oracle : Nat → IdOutcome) (now : Int) : TokenCache → Nat → Nat → Except HTTPExc String × TokenCache × Nat
  | c, _, 0 => (Except.error authFailedInternalExc, c, 0)
  | c, i, fuel + 1 =>
    match acquireAttempt c now (oracle i) with
    | Except.ok (t, c') => (Except.ok t, c', 1)
    | Except.error e =>
      if fuel = 0 then (Except.error e, c, 1)
      else
        match acquireGo oracle now c (i + 1) fuel with
        | (res, c', n) => (res, c', n + 1)

/-- get_ibm_token with its retry decorator: up to 3 attempts total. -/
def get_ibm_token (oracle : Nat → IdOutcome) (c : TokenCache) (now : Int) :
    Except HTTPExc String × TokenCache × Nat :=
  acquireGo oracle now c 0 3

/-- The response model of the health endpoint (app.py lines 37-39). -/
structure HealthResponse where
  status : String
  api_ready : Bool
deriving DecidableEq

/-- health_check (app.py lines 134-148), as a function of the outcome of its
get_ibm_token call: on success, status "healthy" and `bool(token)` (true
exactly for a non-empty token); on any exception, status "unhealthy" and
false, the exception being swallowed. -/
def health_check (acq : Except HTTPExc String) : HealthResponse :=
  match acq with
  | Except.ok t => ⟨"healthy", t != ""⟩
  | Except.error _ => ⟨"unhealthy", false⟩

/-- The health endpoint wired to the credential acquirer. -/
def health_endpoint (oracle : Nat → IdOutcome) (c : TokenCache) (now : Int) : HealthResponse :=
  health_check (get_ibm_token oracle c now).1

/-- An HTTP response from the inference endpoint: status, raw body text, and
the parsed JSON body (none when `response.json()` would raise). -/
structure DispResp where
  status : Nat
  text : String
  json : Option Json

/-- One outcome of POSTing to the inference endpoint: a network-level
requests.RequestException with no response, or an HTTP response. -/
inductive DispOutcome where
  | netFail
  | resp (r : DispResp)

/-- The error-detail construction inside the HTTPError handler of chat
(app.py lines 205-211): start from the text HTTP Error followed by the
status; when the body text is non-empty, try to parse it and append the
message field of the first element of the errors field, the errors default
being a one-element list holding an empty dict and the message default being
the fixed string Unknown error; only a ValueError (an unparseable body) is
caught there, any other exception escapes the handler. -/
def mkHttpErrorDetail (r : DispResp) : Except PyExc String :=
  let base := "HTTP Error: " ++ toString r.status
  if r.text = "" then Except.ok base
  else
    match r.json with
    | none => Except.ok (base ++ " - " ++ r.text)
    | some d =>
      match pyDictGet d "errors" (Json.arr [Json.obj []]) with
      | Except.error e => Except.error e
      | Except.ok errs =>
        match pySubscript0 errs with
        | Except.error e => Except.error e
        | Except.ok first =>
          match pyDictGet first "message" (Json.str "Unknown error") with
          | Except.error e => Except.error e
          | Except.ok msg => Except.ok (base ++ " - " ++ pyStr msg)

/-- The success value of the chat endpoint (app.py lines 33-35, 232-235). -/
structure ChatOk where
  response : Json
  status : String

/-- Observable facts about one chat run: the endpoint selected, the number of
dispatches posted to the inference service, and the number of get_ibm_token
calls made on the 401-retry path. -/
structure ChatTrace where
  endpoint : String
  dispatches : Nat
  reauths : Nat
deriving DecidableEq

/-- The tail of chat after a dispatch response is in hand (app.py lines
202-242): `response.raise_for_status()` raises HTTPError on a 4xx or 5xx
status, handled by building the error detail (an exception escaping that
handler reaches the outer boundary and becomes HTTP 500); on a non-error
status the body is parsed (ValueError maps to HTTP 502 "Invalid response
from service") and format_response produces the success payload. -/
def finishResponse (r : DispResp) (c : TokenCache) (tr : ChatTrace) :
    Except HTTPExc ChatOk × TokenCache × ChatTrace :=
  if 400 ≤ r.status ∧ r.status < 600 then
    match mkHttpErrorDetail r with
    | Except.ok d => (Except.error ⟨502, d⟩, c, tr)
    | Except.error _ => (Except.error internalErrorExc, c, tr)
  else
    match r.json with
    | none => (Except.error invalidResponseExc, c, tr)
    | some data => (Except.ok ⟨format_response data, "success"⟩, c, tr)

/-- chat (app.py lines 150-251). Inputs: the message and stream flag, the
cache state and current time, one identity oracle per get_ibm_token call
site, and one outcome per dispatch. Mirrors the source: empty message maps
to HTTP 400; any failure of the initial get_ibm_token call maps to HTTP 401
"Authentication failed"; a network failure on either dispatch maps to HTTP
503 "Service unavailable"; a 401 first dispatch clears the cached token,
re-acquires once and re-dispatches once, an HTTPException raised by that
re-acquisition propagating verbatim through the outer
`except HTTPException: raise`; everything else is handled by finishResponse.
The request payload posted on both dispatches is get_watsonx_payload msg. -/
def chat (msg : String) (stream : Bool) (c : TokenCache) (now : Int)
    (idO1 idO2 : Nat → IdOutcome) (d1 d2 : DispOutcome) :
    Except HTTPExc ChatOk × TokenCache × ChatTrace :=
  let endpoint := if stream then STREAMING_ENDPOINT else REGULAR_ENDPOINT
  if pyStrip msg = "" then (Except.error badRequestExc, c, ⟨endpoint, 0, 0⟩)
  else
    match get_ibm_token idO1 c now with
    | (Except.error _, c1, _) => (Except.error authFailedExc, c1, ⟨endpoint, 0, 0⟩)
    | (Except.ok _, c1, _) =>
      match d1 with
      | DispOutcome.netFail => (Except.error serviceUnavailableExc, c1, ⟨endpoint, 1, 0⟩)
      | DispOutcome.resp r1 =>
        if r1.status = 401 then
          match get_ibm_token idO2 (invalidate c1) now with
          | (Except.error e, c2, _) => (Except.error e, c2, ⟨endpoint, 1, 1⟩)
          | (Except.ok _, c2, _) =>
            match d2 with
            | DispOutcome.netFail => (Except.error serviceUnavailableExc, c2, ⟨endpoint, 2, 1⟩)
            | DispOutcome.resp r2 => finishResponse r2 c2 ⟨endpoint, 2, 1⟩
        else finishResponse r1 c1 ⟨endpoint, 1, 0⟩

/-- Helper: when the happy extraction path applies, the try body of
format_response returns the content field verbatim. -/
theorem formatInner_content (data ct : Json) (h : contentOfFirstChoice data = some ct) :
    formatInner data = Except.ok ct := by
  unfold contentOfFirstChoice at h
  repeat' split at h
  all_goals try exact absurd h (by simp)
  all_goals simp_all [formatInner, pyIn, pySubscriptKey, pyTruthy, pySubscript0, pyDictGet]

/-- Helper: every value the try body of format_response returns is either a
Python string or the verbatim content field of the first choice. -/
theorem formatInner_ok_shape (data v : Json) (h : formatInner data = Except.ok v) :
    v.isStr = true ∨ contentOfFirstChoice data = some v := by
  rcases data with _ | b | n | s | s | xs | kvs
  · exact absurd h (by simp [formatInner, pyIn])
  · exact absurd h (by simp [formatInner, pyIn])
  · exact absurd h (by simp [formatInner, pyIn])
  · exact absurd h (by simp [formatInner, pyIn])
  · rcases hc : strHasSub "choices" s with _ | _ <;>
      simp [formatInner, pyIn, pySubscriptKey, hc] at h <;> simp [← h, Json.isStr]
  · rcases hc : xs.any (pyEqStr "choices") with _ | _ <;>
      simp [formatInner, pyIn, pySubscriptKey, hc] at h <;> simp [← h, Json.isStr]
  · rcases h1 : lookupKV kvs "choices" with _ | w
    · simp [formatInner, pyIn, h1] at h
      simp [← h, Json.isStr]
    · rcases w with _ | b | n | s | s | wxs | wf
      · simp [formatInner, pyIn, pySubscriptKey, pyTruthy, h1] at h
        simp [← h, Json.isStr]
      · rcases b with _ | _ <;>
          simp [formatInner, pyIn, pySubscriptKey, pyTruthy, pySubscript0, h1] at h <;>
          simp [← h, Json.isStr]
      · rcases hn : n == 0 with _ | _ <;>
          simp [formatInner, pyIn, pySubscriptKey, pyTruthy, pySubscript0, hn, bne, h1] at h <;>
          simp [← h, Json.isStr]
      · simp [formatInner, pyIn, pySubscriptKey, pyTruthy, pySubscript0, h1] at h
      · by_cases hs : s = ""
        · simp [formatInner, pyIn, pySubscriptKey, pyTruthy, pySubscript0, hs, h1] at h
          simp [← h, Json.isStr]
        · simp [formatInner, pyIn, pySubscriptKey, pyTruthy, pySubscript0, pyDictGet, hs, h1] at h
      · rcases wxs with _ | ⟨c0, rest⟩
        · simp [formatInner, pyIn, pySubscriptKey, pyTruthy, pySubscript0, h1] at h
          simp [← h, Json.isStr]
        · rcases c0 with _ | b | n | s | s | cxs | cf
          iterate 5
            simp [formatInner, pyIn, pySubscriptKey, pyTruthy, pySubscript0, pyDictGet, h1] at h
          · simp [formatInner, pyIn, pySubscriptKey, pyTruthy, pySubscript0, pyDictGet, h1] at h
          · rcases h2 : lookupKV cf "message" with _ | m
            · simp [formatInner, pyIn, pySubscriptKey, pyTruthy, pySubscript0, pyDictGet, h1, h2, lookupKV] at h
              simp [← h, Json.isStr]
            · rcases m with _ | b | n | s | s | mxs | mf
              iterate 6
                simp [formatInner, pyIn, pySubscriptKey, pyTruthy, pySubscript0, pyDictGet, h1, h2] at h
              rcases h3 : lookupKV mf "content" with _ | ct
              · simp [formatInner, pyIn, pySubscriptKey, pyTruthy, pySubscript0, pyDictGet, h1, h2, h3] at h
                simp [← h, Json.isStr]
              · simp [formatInner, pyIn, pySubscriptKey, pyTruthy, pySubscript0, pyDictGet, h1, h2, h3] at h
                right
                simp [contentOfFirstChoice, h1, h2, h3, h]
      · rcases wf with _ | ⟨p, ps⟩
        · simp [formatInner, pyIn, pySubscriptKey, pyTruthy, pySubscript0, h1] at h
          simp [← h, Json.isStr]
        · simp [formatInner, pyIn, pySubscriptKey, pyTruthy, pySubscript0, h1] at h

/-- C6: the response normalizer, pointwise. The first three stated cases hold
as written: the well-formed body yields its content string, an empty choices
list yields the Python string rendering of the whole body, and a choice with
an empty message dict yields the fixed default. The fourth stated case is
amended: a non-dict input yields the placeholder exactly when the Python
lookup machinery raises, namely for None, booleans and numbers (TypeError on
the membership test) and for lists containing the string choices and strings
containing choices as a substring (the membership test passes, then the
string-keyed subscript raises TypeError); every other list yields the string
rendering of the input and every other string yields the string itself. -/
theorem format_response_pointwise :
    format_response (Json.obj [("choices", Json.arr [Json.obj [("message", Json.obj [("content", Json.str "hi")])]])]) = Json.str "hi" ∧
    format_response (Json.obj [("choices", Json.arr [])]) = Json.str (pyStr (Json.obj [("choices", Json.arr [])])) ∧
    format_response (Json.obj [("choices", Json.arr [Json.obj [("message", Json.obj [])]])]) = Json.str "No response content" ∧
    format_response Json.null = Json.str parseFailMsg ∧
    format_response (Json.bool true) = Json.str parseFailMsg ∧
    format_response (Json.int 5) = Json.str parseFailMsg ∧
    (∀ xs, xs.any (pyEqStr "choices") = true →
      format_response (Json.arr xs) = Json.str parseFailMsg) ∧
    (∀ xs, xs.any (pyEqStr "choices") = false →
      format_response (Json.arr xs) = Json.str (pyStr (Json.arr xs))) ∧
    (∀ s, strHasSub "choices" s = true →
      format_response (Json.str s) = Json.str parseFailMsg) ∧
    (∀ s, strHasSub "choices" s = false →
      format_response (Json.str s) = Json.str s) := by
  refine ⟨rfl, rfl, rfl, rfl, rfl, rfl, ?_, ?_, ?_, ?_⟩
  · intro xs h
    simp [format_response, formatInner, pyIn, pySubscriptKey, h]
  · intro xs h
    simp [format_response, formatInner, pyIn, h]
  · intro s h
    simp [format_response, formatInner, pyIn, pySubscriptKey, h]
  · intro s h
    simp [format_response, formatInner, pyIn, pyStr, h]

/-- C6 witness: concrete instances of the amended non-dict branches: a list
containing the string choices and a string containing choices as a substring
both yield the placeholder, while a list without such an element yields the
string rendering and an unrelated string yields itself. -/
theorem format_response_pointwise_witness :
    format_response (Json.arr [Json.str "choices"]) = Json.str parseFailMsg ∧
    format_response (Json.str "my choices here") = Json.str parseFailMsg ∧
    format_response (Json.arr [Json.int 1]) = Json.str (pyStr (Json.arr [Json.int 1])) ∧
    format_response (Json.str "oops") = Json.str "oops" :=
  ⟨format_response_pointwise.2.2.2.2.2.2.1 [Json.str "choices"] rfl,
   format_response_pointwise.2.2.2.2.2.2.2.2.1 "my choices here" rfl,
   format_response_pointwise.2.2.2.2.2.2.2.1 [Json.int 1] rfl,
   format_response_pointwise.2.2.2.2.2.2.2.2.2 "oops" rfl⟩

/-- C6 counterexample: a JSON list and a JSON string are malformed, non-dict
inputs, yet the normalizer returns the string rendering of the input (the
Python membership test succeeds on lists and strings without raising), not
the fixed placeholder. -/
theorem format_response_nondict_counterexample :
    format_response (Json.arr []) = Json.str (pyStr (Json.arr [])) ∧
    pyStr (Json.arr []) = "[]" ∧
    format_response (Json.str "some text") = Json.str "some text" ∧
    "[]" ≠ parseFailMsg ∧ "some text" ≠ parseFailMsg := by
  refine ⟨rfl, ?_, rfl, by decide, by decide⟩
  have h1 : pyStr (Json.arr []) = pyRepr (Json.arr []) := rfl
  rw [h1]
  simp only [pyRepr, pyReprSeq]
  decide

/-- C7: the response normalizer is total and never raises: every exception
of the try body is caught and converted to the fixed placeholder string.
Amended: the result is a Python string in every case except the pass-through
case, where the content field of the first choice is returned verbatim and
may itself be a non-string JSON value. -/
theorem format_response_total (data : Json) :
    (∀ e, formatInner data = Except.error e → format_response data = Json.str parseFailMsg) ∧
    (∀ ct, contentOfFirstChoice data = some ct → format_response data = ct) ∧
    (contentOfFirstChoice data = none → (format_response data).isStr = true) := by
  refine ⟨?_, ?_, ?_⟩
  · intro e he
    simp [format_response, he]
  · intro ct hct
    simp [format_response, formatInner_content data ct hct]
  · intro hnone
    rcases hv : formatInner data with e | v
    · simp [format_response, hv, Json.isStr]
    · rcases formatInner_ok_shape data v hv with hstr | hcontent
      · simpa [format_response, hv] using hstr
      · rw [hnone] at hcontent
        exact absurd hcontent (by simp)

/-- C7 witness: the theorem applied at a concrete input whose content field
is the number 42, which is passed through verbatim. -/
theorem format_response_total_witness :
    format_response (Json.obj [("choices", Json.arr [Json.obj [("message", Json.obj [("content", Json.int 42)])]])]) = Json.int 42 :=
  (format_response_total (Json.obj [("choices", Json.arr [Json.obj [("message", Json.obj [("content", Json.int 42)])]])])).2.1 (Json.int 42) rfl

/-- C7 counterexample: for the input whose content field is the number 42 the
normalizer returns the number itself, not a string, refuting the claim that
every input yields a string. -/
theorem format_response_nonstring_counterexample :
    (format_response (Json.obj [("choices", Json.arr [Json.obj [("message", Json.obj [("content", Json.int 42)])]])])).isStr = false ∧
    format_response (Json.obj [("choices", Json.arr [Json.obj [("message", Json.obj [("content", Json.int 42)])]])]) = Json.int 42 :=
  ⟨rfl, rfl⟩

/-- C8: the payload builder is a pure function of the message: for every
non-empty trimmed message its output carries exactly one message turn with
role user and the original message as content, the fixed project identifier,
and the fixed generation parameters; two calls with the same message yield
equal payloads. -/
theorem get_watsonx_payload_spec (m : String) (h : pyStrip m ≠ "") :
    jsonField (get_watsonx_payload m) "messages"
      = some (Json.arr [Json.obj [("content", Json.str m), ("role", Json.str "user")]]) ∧
    jsonField (get_watsonx_payload m) "project_id" = some (Json.str CONFIG_PROJECT_ID) ∧
    jsonField (get_watsonx_payload m) "parameters"
      = some (Json.obj [("max_new_tokens", Json.int 200), ("temperature", Json.numLit "0.7"),
          ("top_p", Json.numLit "0.9"), ("repetition_penalty", Json.numLit "1.1")]) ∧
    get_watsonx_payload m = get_watsonx_payload m :=
  ⟨rfl, rfl, rfl, rfl⟩

/-- C8 witness: the payload shape at the concrete message hello. -/
theorem get_watsonx_payload_spec_witness :
    jsonField (get_watsonx_payload "hello") "messages"
      = some (Json.arr [Json.obj [("content", Json.str "hello"), ("role", Json.str "user")]]) :=
  (get_watsonx_payload_spec "hello" (by decide)).1

/-- C5: the token-cache read. Amended: the read yields None whenever
expires_at <= now, and also whenever the stored token is None or the empty
string (the Python truthiness test); it yields the stored token whenever the
token is a non-empty string and expires_at > now; invalidate() followed by a
read always yields None. -/
theorem token_cache_read_spec (c : TokenCache) (now : Int) :
    (c.expires_at ≤ now → get_valid_token c now = none) ∧
    (∀ t, c.token = some t → t ≠ "" → now < c.expires_at → get_valid_token c now = some t) ∧
    ((c.token = none ∨ c.token = some "") → get_valid_token c now = none) ∧
    get_valid_token (invalidate c) now = none := by
  rcases c with ⟨tk, exp⟩
  refine ⟨?_, ?_, ?_, ?_⟩
  · intro hle
    have hcv : cacheValid ⟨tk, exp⟩ now = false := by
      rcases tk with _ | t
      · rfl
      · simp [cacheValid, not_lt.mpr hle]
    simp [get_valid_token, hcv]
  · rintro t rfl hne hlt
    simp [get_valid_token, cacheValid, hne, hlt]
  · rintro (h | h) <;> simp at h <;> subst h <;> rfl
  · rfl

/-- C5 witness: a valid non-empty cached token is served; an expired one is
not. -/
theorem token_cache_read_spec_witness :
    get_valid_token ⟨some "tok", 10⟩ 0 = some "tok" ∧
    get_valid_token ⟨some "tok", 0⟩ 5 = none :=
  ⟨(token_cache_read_spec ⟨some "tok", 10⟩ 0).2.1 "tok" rfl (by decide) (by decide),
   (token_cache_read_spec ⟨some "tok", 0⟩ 5).1 (by decide)⟩

/-- C5 counterexample: a cache state holding the empty-string token with a
future expiry: expires_at > now yet the read yields None rather than the
stored token (the Python truthiness test rejects the empty string). -/
theorem token_cache_empty_token_counterexample :
    get_valid_token ⟨some "", 10⟩ 0 = none ∧ (0 : Int) < 10 ∧
    some "" ≠ (none : Option String) :=
  ⟨rfl, by decide, by decide⟩

/-- C3: classification of one acquire attempt, on a cache miss. Amended: a
network-level failure yields AuthServiceUnavailable (HTTP 503); a non-2xx
HTTP response from the identity service ALSO yields AuthServiceUnavailable,
because the HTTPError raised by raise_for_status is a RequestException and is
caught by the same handler; any other unexpected failure (a body without the
access_token field) yields the acquirer-internal AuthFailed (HTTP 500); on
HTTP success the access token of the body is stored with a one-hour expiry
and returned verbatim (hence non-empty whenever the service supplied a
non-empty token). -/
theorem acquire_attempt_classification (c : TokenCache) (now : Int) (o : IdOutcome)
    (hmiss : cacheValid c now = false) :
    (o = IdOutcome.netFail → acquireAttempt c now o = Except.error authServiceUnavailableExc) ∧
    (∀ s tk, o = IdOutcome.resp s tk → 400 ≤ s → s < 600 →
      acquireAttempt c now o = Except.error authServiceUnavailableExc) ∧
    (∀ s, o = IdOutcome.resp s none → ¬(400 ≤ s ∧ s < 600) →
      acquireAttempt c now o = Except.error authFailedInternalExc) ∧
    (∀ s t, o = IdOutcome.resp s (some t) → ¬(400 ≤ s ∧ s < 600) →
      acquireAttempt c now o = Except.ok (t, ⟨some t, now + 3600⟩)) := by
  refine ⟨?_, ?_, ?_, ?_⟩
  · rintro rfl
    simp [acquireAttempt, hmiss, acquireNetwork]
  · rintro s tk rfl h4 h6
    simp [acquireAttempt, hmiss, acquireNetwork, h4, h6]
  · rintro s rfl hn
    simp [acquireAttempt, hmiss, acquireNetwork, hn]
  · rintro s t rfl hn
    simp [acquireAttempt, hmiss, acquireNetwork, hn]

/-- C3 witness: a 200 response carrying a token succeeds and caches it. -/
theorem acquire_attempt_classification_witness :
    acquireAttempt initialCache 0 (IdOutcome.resp 200 (some "tok")) =
      Except.ok ("tok", ⟨some "tok", 3600⟩) :=
  (acquire_attempt_classification initialCache 0 (IdOutcome.resp 200 (some "tok")) rfl).2.2.2
    200 "tok" rfl (by decide)

/-- C3 counterexample: a non-2xx identity response (HTTP 500 here) produces
the AuthServiceUnavailable category, not AuthFailed as the claim states. -/
theorem acquire_attempt_http_error_counterexample :
    acquireAttempt initialCache 0 (IdOutcome.resp 500 none) = Except.error authServiceUnavailableExc ∧
    authServiceUnavailableExc ≠ authFailedInternalExc :=
  ⟨rfl, by decide⟩

/-- Helper: the three-attempt unrolling of get_ibm_token. -/
theorem get_ibm_token_eq (oracle : Nat → IdOutcome) (c : TokenCache) (now : Int) :
    get_ibm_token oracle c now =
      match acquireAttempt c now (oracle 0) with
      | Except.ok (t, c') => (Except.ok t, c', 1)
      | Except.error _ =>
        match acquireAttempt c now (oracle 1) with
        | Except.ok (t, c') => (Except.ok t, c', 2)
        | Except.error _ =>
          match acquireAttempt c now (oracle 2) with
          | Except.ok (t, c') => (Except.ok t, c', 3)
          | Except.error e2 => (Except.error e2, c, 3) := by
  rcases h0 : acquireAttempt c now (oracle 0) with e0 | ⟨t0, d0⟩ <;>
    rcases h1 : acquireAttempt c now (oracle 1) with e1 | ⟨t1, d1⟩ <;>
    rcases h2 : acquireAttempt c now (oracle 2) with e2 | ⟨t2, d2⟩ <;>
    simp [get_ibm_token, acquireGo, h0, h1, h2]

/-- C2: the acquire sequence is attempted at most 3 times total (and at
least once); a failed attempt before the third is retried; when the first
two attempts fail and the third succeeds, exactly 3 attempts occur and the
third token is returned; when all three fail, the third failure propagates
to the caller unmodified. -/
theorem get_ibm_token_retry_spec (oracle : Nat → IdOutcome) (c : TokenCache) (now : Int) :
    (1 ≤ (get_ibm_token oracle c now).2.2 ∧ (get_ibm_token oracle c now).2.2 ≤ 3) ∧
    (∀ e0, acquireAttempt c now (oracle 0) = Except.error e0 →
      2 ≤ (get_ibm_token oracle c now).2.2) ∧
    (∀ e0 e1 t c2, acquireAttempt c now (oracle 0) = Except.error e0 →
      acquireAttempt c now (oracle 1) = Except.error e1 →
      acquireAttempt c now (oracle 2) = Except.ok (t, c2) →
      get_ibm_token oracle c now = (Except.ok t, c2, 3)) ∧
    (∀ e0 e1 e2, acquireAttempt c now (oracle 0) = Except.error e0 →
      acquireAttempt c now (oracle 1) = Except.error e1 →
      acquireAttempt c now (oracle 2) = Except.error e2 →
      get_ibm_token oracle c now = (Except.error e2, c, 3)) := by
  refine ⟨?_, ?_, ?_, ?_⟩
  · rw [get_ibm_token_eq]
    rcases acquireAttempt c now (oracle 0) with e0 | ⟨t0, d0⟩ <;>
      rcases acquireAttempt c now (oracle 1) with e1 | ⟨t1, d1⟩ <;>
      rcases acquireAttempt c now (oracle 2) with e2 | ⟨t2, d2⟩ <;>
      simp
  · intro e0 h0
    rw [get_ibm_token_eq, h0]
    rcases acquireAttempt c now (oracle 1) with e1 | ⟨t1, d1⟩ <;>
      rcases acquireAttempt c now (oracle 2) with e2 | ⟨t2, d2⟩ <;>
      simp
  · intro e0 e1 t c2 h0 h1 h2
    rw [get_ibm_token_eq, h0, h1, h2]
  · intro e0 e1 e2 h0 h1 h2
    rw [get_ibm_token_eq, h0, h1, h2]

/-- The identity oracle that fails on the first two attempts and succeeds on
the third, used as the concrete retry scenario. -/
def failTwiceOracle : Nat → IdOutcome :=
  fun i => if i = 2 then IdOutcome.resp 200 (some "tok3") else IdOutcome.netFail

/-- C2 witness: with an identity endpoint failing twice then succeeding and
an invalid cache, exactly 3 attempts occur and the third token is returned
and cached. -/
theorem get_ibm_token_retry_spec_witness :
    get_ibm_token failTwiceOracle initialCache 0 = (Except.ok "tok3", ⟨some "tok3", 3600⟩, 3) :=
  (get_ibm_token_retry_spec failTwiceOracle initialCache 0).2.2.1
    authServiceUnavailableExc authServiceUnavailableExc "tok3" ⟨some "tok3", 3600⟩ rfl rfl rfl

/-- C9: the health reporter, as a function of the acquirer outcome. Amended:
it never raises; on success it reports status healthy with readiness equal to
the Python truthiness of the returned token (true for every non-empty token,
false for the empty token); on any failure it reports status unhealthy with
readiness false, swallowing the error. -/
theorem health_check_spec (acq : Except HTTPExc String) :
    (∀ t, acq = Except.ok t → health_check acq = ⟨"healthy", t != ""⟩) ∧
    (∀ t, acq = Except.ok t → t ≠ "" → health_check acq = ⟨"healthy", true⟩) ∧
    (∀ e, acq = Except.error e → health_check acq = ⟨"unhealthy", false⟩) := by
  refine ⟨?_, ?_, ?_⟩
  · rintro t rfl
    rfl
  · rintro t rfl hne
    simp [health_check, hne]
  · rintro e rfl
    rfl

/-- C9 witness: a successful non-empty token yields healthy and ready; a
failing acquirer yields unhealthy and not ready. -/
theorem health_check_spec_witness :
    health_check (Except.ok "tok") = ⟨"healthy", true⟩ ∧
    health_check (Except.error authServiceUnavailableExc) = ⟨"unhealthy", false⟩ :=
  ⟨(health_check_spec (Except.ok "tok")).2.1 "tok" rfl (by decide),
   (health_check_spec (Except.error authServiceUnavailableExc)).2.2 authServiceUnavailableExc rfl⟩

/-- C9 counterexample: an identity endpoint returning HTTP 200 with an empty
access token makes the acquirer succeed with the empty string, and the health
endpoint reports status healthy with readiness FALSE, refuting readiness-true
on every acquisition success. -/
theorem health_check_empty_token_counterexample :
    (get_ibm_token (fun _ => IdOutcome.resp 200 (some "")) initialCache 0).1 = Except.ok "" ∧
    health_endpoint (fun _ => IdOutcome.resp 200 (some "")) initialCache 0 = ⟨"healthy", false⟩ ∧
    false ≠ true :=
  ⟨rfl, rfl, by decide⟩

/-- C4: where network-level failures surface. Amended: a network-level
failure contacting the inference service (on either dispatch) surfaces as
ServiceUnavailable (HTTP 503); a network-level failure contacting the
identity service surfaces as ServiceUnavailable (HTTP 503, the acquirer
exception propagating verbatim) only on the 401-retry re-acquisition path;
on the initial authentication step every acquirer failure, including a
network-level one, is re-signalled as AuthFailed (HTTP 401) instead. -/
theorem network_failure_surface_spec (msg : String) (stream : Bool) (c : TokenCache) (now : Int)
    (idO1 idO2 : Nat → IdOutcome) (d2 : DispOutcome) (hmsg : pyStrip msg ≠ "") :
    (∀ tok c1 n1, get_ibm_token idO1 c now = (Except.ok tok, c1, n1) →
      (chat msg stream c now idO1 idO2 DispOutcome.netFail d2).1 = Except.error serviceUnavailableExc) ∧
    (∀ tok c1 n1 r1 tok2 c2 n2, get_ibm_token idO1 c now = (Except.ok tok, c1, n1) →
      r1.status = 401 →
      get_ibm_token idO2 (invalidate c1) now = (Except.ok tok2, c2, n2) →
      (chat msg stream c now idO1 idO2 (DispOutcome.resp r1) DispOutcome.netFail).1
        = Except.error serviceUnavailableExc) ∧
    (∀ e c1 n1 d1, get_ibm_token idO1 c now = (Except.error e, c1, n1) →
      (chat msg stream c now idO1 idO2 d1 d2).1 = Except.error authFailedExc) ∧
    (∀ tok c1 n1 r1 c2 n2, get_ibm_token idO1 c now = (Except.ok tok, c1, n1) →
      r1.status = 401 →
      get_ibm_token idO2 (invalidate c1) now = (Except.error authServiceUnavailableExc, c2, n2) →
      (chat msg stream c now idO1 idO2 (DispOutcome.resp r1) d2).1
        = Except.error authServiceUnavailableExc) := by
  refine ⟨?_, ?_, ?_, ?_⟩
  · intro tok c1 n1 h1
    simp [chat, hmsg, h1]
  · intro tok c1 n1 r1 tok2 c2 n2 h1 hr h2
    simp [chat, hmsg, h1, hr, h2]
  · intro e c1 n1 d1 h1
    cases d1 <;> simp [chat, hmsg, h1]
  · intro tok c1 n1 r1 c2 n2 h1 hr h2
    simp [chat, hmsg, h1, hr, h2]

/-- The identity oracle that always succeeds with a fixed token. -/
def okIdOracle : Nat → IdOutcome := fun _ => IdOutcome.resp 200 (some "tok1")

/-- C4 witness: after a successful authentication, a network-level failure on
the first dispatch surfaces as HTTP 503 Service unavailable. -/
theorem network_failure_surface_spec_witness :
    (chat "hello" false initialCache 0 okIdOracle okIdOracle DispOutcome.netFail DispOutcome.netFail).1
      = Except.error serviceUnavailableExc :=
  (network_failure_surface_spec "hello" false initialCache 0 okIdOracle okIdOracle
      DispOutcome.netFail (by decide)).1 "tok1" ⟨some "tok1", 3600⟩ 1 rfl

/-- C4 counterexample: a network-level failure reaching the identity service
during the initial authentication of a chat request surfaces as HTTP 401
Authentication failed, not as the ServiceUnavailable category, refuting the
claim for the identity-service case. -/
theorem initial_auth_netfail_counterexample :
    (chat "hello" false initialCache 0 (fun _ => IdOutcome.netFail) (fun _ => IdOutcome.netFail)
      DispOutcome.netFail DispOutcome.netFail).1 = Except.error authFailedExc ∧
    authFailedExc.code = 401 ∧
    authFailedExc ≠ serviceUnavailableExc ∧ authFailedExc ≠ authServiceUnavailableExc :=
  ⟨rfl, rfl, by decide, by decide⟩

/-- Helper: every error produced by one acquire attempt is one of the two
acquirer categories. -/
theorem acquireAttempt_error_cases (c : TokenCache) (now : Int) (o : IdOutcome) (e : HTTPExc)
    (h : acquireAttempt c now o = Except.error e) :
    e = authServiceUnavailableExc ∨ e = authFailedInternalExc := by
  by_cases hv : cacheValid c now
  · simp [acquireAttempt, hv] at h
  · rcases o with _ | ⟨s, tk⟩
    · simp [acquireAttempt, hv, acquireNetwork] at h
      exact Or.inl h.symm
    · by_cases hs : 400 ≤ s ∧ s < 600
      · simp [acquireAttempt, hv, acquireNetwork, hs] at h
        exact Or.inl h.symm
      · rcases tk with _ | t <;> simp [acquireAttempt, hv, acquireNetwork, hs] at h
        exact Or.inr h.symm

/-- C10: the gateway 401 AuthFailed normalization covers only the initial
authenticate step; when re-acquisition fails during the 401 retry path, the
acquirer exception (always one of AuthServiceUnavailable or the
acquirer-internal AuthFailed) propagates to the caller verbatim, with exactly
one dispatch and one re-acquisition having occurred. -/
theorem auth_retry_error_propagation (msg : String) (stream : Bool) (c : TokenCache) (now : Int)
    (idO1 idO2 : Nat → IdOutcome) (d2 : DispOutcome) (hmsg : pyStrip msg ≠ "") :
    (∀ oracle c0 e, (get_ibm_token oracle c0 now).1 = Except.error e →
      e = authServiceUnavailableExc ∨ e = authFailedInternalExc) ∧
    (∀ e c1 n1 d1, get_ibm_token idO1 c now = (Except.error e, c1, n1) →
      (chat msg stream c now idO1 idO2 d1 d2).1 = Except.error authFailedExc) ∧
    (∀ tok c1 n1 r1 e c2 n2, get_ibm_token idO1 c now = (Except.ok tok, c1, n1) →
      r1.status = 401 →
      get_ibm_token idO2 (invalidate c1) now = (Except.error e, c2, n2) →
      (chat msg stream c now idO1 idO2 (DispOutcome.resp r1) d2).1 = Except.error e ∧
      (chat msg stream c now idO1 idO2 (DispOutcome.resp r1) d2).2.2
        = ⟨if stream then STREAMING_ENDPOINT else REGULAR_ENDPOINT, 1, 1⟩) := by
  refine ⟨?_, ?_, ?_⟩
  · intro oracle c0 e h
    rw [get_ibm_token_eq] at h
    rcases h0 : acquireAttempt c0 now (oracle 0) with e0 | ⟨t0, d0⟩
    · rw [h0] at h
      rcases h1 : acquireAttempt c0 now (oracle 1) with e1 | ⟨t1, d1⟩
      · rw [h1] at h
        rcases h2 : acquireAttempt c0 now (oracle 2) with e2 | ⟨t2, d2'⟩
        · rw [h2] at h
          simp at h
          subst h
          exact acquireAttempt_error_cases c0 now (oracle 2) e2 h2
        · rw [h2] at h
          simp at h
      · rw [h1] at h
        simp at h
    · rw [h0] at h
      simp at h
  · intro e c1 n1 d1 h1
    cases d1 <;> simp [chat, hmsg, h1]
  · intro tok c1 n1 r1 e c2 n2 h1 hr h2
    refine ⟨?_, ?_⟩ <;> simp [chat, hmsg, h1, hr, h2]

/-- C10 witness: with a 401 first dispatch and an identity service that is
network-unreachable during re-acquisition, the chat request surfaces the
acquirer 503 verbatim. -/
theorem auth_retry_error_propagation_witness :
    (chat "hello" false initialCache 0 okIdOracle (fun _ => IdOutcome.netFail)
      (DispOutcome.resp ⟨401, "denied", none⟩) DispOutcome.netFail).1
      = Except.error authServiceUnavailableExc :=
  ((auth_retry_error_propagation "hello" false initialCache 0 okIdOracle (fun _ => IdOutcome.netFail)
      DispOutcome.netFail (by decide)).2.2 "tok1" ⟨some "tok1", 3600⟩ 1 ⟨401, "denied", none⟩
      authServiceUnavailableExc (invalidate ⟨some "tok1", 3600⟩) 3 rfl rfl rfl).1

/-- C1 (evaluation at the failing input): a chat request whose first dispatch
returns 401, whose re-acquisition succeeds, and whose second dispatch returns
401 with body errors mapped to an empty list, fails as HTTP 500 Internal
server error, NOT as the 502 UpstreamError the claim and the spec require:
the IndexError raised by indexing the empty errors list inside the HTTPError
handler escapes to the outer boundary. With a benign 401 body (empty text)
the same scenario does yield 502. In both runs exactly two dispatches and one
re-acquisition occur, so no third dispatch is ever attempted. -/
theorem chat_second_401_divergence :
    (chat "hello" false ⟨some "tok0", 100⟩ 0 (fun _ => IdOutcome.netFail)
      (fun _ => IdOutcome.resp 200 (some "tok1"))
      (DispOutcome.resp ⟨401, "denied", none⟩)
      (DispOutcome.resp ⟨401, "errbody", some (Json.obj [("errors", Json.arr [])])⟩)).1
      = Except.error internalErrorExc ∧
    (chat "hello" false ⟨some "tok0", 100⟩ 0 (fun _ => IdOutcome.netFail)
      (fun _ => IdOutcome.resp 200 (some "tok1"))
      (DispOutcome.resp ⟨401, "denied", none⟩)
      (DispOutcome.resp ⟨401, "errbody", some (Json.obj [("errors", Json.arr [])])⟩)).2.2
      = ⟨REGULAR_ENDPOINT, 2, 1⟩ ∧
    internalErrorExc.code = 500 ∧ internalErrorExc.code ≠ 502 ∧
    (chat "hello" false ⟨some "tok0", 100⟩ 0 (fun _ => IdOutcome.netFail)
      (fun _ => IdOutcome.resp 200 (some "tok1"))
      (DispOutcome.resp ⟨401, "denied", none⟩)
      (DispOutcome.resp ⟨401, "", none⟩)).1
      = Except.error ⟨502, "HTTP Error: 401"⟩ ∧
    (chat "hello" false ⟨some "tok0", 100⟩ 0 (fun _ => IdOutcome.netFail)
      (fun _ => IdOutcome.resp 200 (some "tok1"))
      (DispOutcome.resp ⟨401, "denied", none⟩)
      (DispOutcome.resp ⟨401, "", none⟩)).2.2
      = ⟨REGULAR_ENDPOINT, 2, 1⟩ :=
  ⟨rfl, rfl, rfl, by decide, rfl, rfl⟩

end WatsonxBackend
